import Mathlib

/-!
Shallow embedding of the PvPool reconciler
(src/controllers/pvpool_controller.go) together with the data it operates
on.  Pure computations of the controller are translated into Lean
functions; the external world (the orchestration API, the per-pod storage
agents, the network) is passed in explicitly as an environment, and every
network/API interaction the controller performs is recorded in the result
so that frame conditions ("no mutating call was issued") can be stated.

Go int32/int64 values (numPVs, replica counts, total/used bytes) are
modelled as Int, with the two places where machine width is observable
modelled explicitly: the wrapping conversion int32(num) in the
decommission guard (toInt32) and strconv.Atoi's int64 range error
(atoi).
-/

/-- Error taxonomy of the reconciler, as produced by the agent status
client (transport failure / non-200 or malformed body) and by calls to
the orchestration API. -/
inductive Err where
  | agentUnreachable (url : String)
  | agentProtocolError (url : String)
  | apiError (msg : String)
deriving DecidableEq

/-- storageAgentStatus is the JSON body returned by a storage agent on
GET /status (source line 51): name, total, used (int64, modelled as Int)
and a free-form state string. -/
structure storageAgentStatus where
  name : String
  total : Int
  used : Int
  state : String
deriving DecidableEq

/-- The slice of a core/v1 Pod that the reconciler reads: its name, its
spec.Subdomain, and its namespace (field ns). -/
structure Pod where
  name : String
  subdomain : String
  ns : String
deriving DecidableEq

/-- PvPodSInfo from api/v1: the per-pod entry of the pool status.
Modelled from the spec: the api/v1 package is not part of the sources;
the CRD schema (src/unnamed/part_000) gives the two fields podName and
podStatus, the latter a string enum. -/
structure PvPodSInfo where
  PodName : String
  PodStatus : String
deriving DecidableEq

/-- PvPoolStatus from api/v1.  Modelled from the spec: phase (string
enum), countByState (a Go map from pod-state string to int32, modelled as
an association list built only through mapBump, so keys stay distinct),
podsInfo (ordered list), and the Used field written by
collectPodsStatus.  Used is an Option Int: some u is the int value u,
none marks the implementation-defined result of converting the float
Inf/NaN produced by a division by zero (see percent). -/
structure PvPoolStatus where
  Phase : String
  PodsInfo : List PvPodSInfo
  CountByState : List (String × Int)
  Used : Option Int
deriving DecidableEq

/-- PvPoolSpec from api/v1.  Modelled from the spec: image, numPVs
(int32), pvSizeGB (int32), per the CRD schema. -/
structure PvPoolSpec where
  image : String
  numPVs : Int
  pvSizeGB : Int
deriving DecidableEq

/-- PvPool resource: identity plus spec plus the last persisted status. -/
structure PvPool where
  name : String
  ns : String
  spec : PvPoolSpec
  status : PvPoolStatus
deriving DecidableEq

/-- Modelled from the spec: pod-state enum value Unknown of api/v1. -/
def PvPodStatusUnknown : String := "Unknown"

/-- Modelled from the spec: pod-state enum value Ready of api/v1. -/
def PvPodStatusReady : String := "Ready"

/-- Modelled from the spec: pod-state enum value Decommissioning of api/v1. -/
def PvPodStatusDecommissioning : String := "Decommissioning"

/-- Modelled from the spec: pod-state enum value Decommissioned of api/v1. -/
def PvPodStatusDecommissioned : String := "Decommissioned"

/-- Modelled from the spec: pool phase Unknown of api/v1. -/
def PvPoolPhaseUnknown : String := "Unknown"

/-- Modelled from the spec: pool phase Scaling of api/v1. -/
def PvPoolPhaseScaling : String := "Scaling"

/-- Modelled from the spec: pool phase Ready of api/v1. -/
def PvPoolPhaseReady : String := "Ready"

/-- getPvPoolServiceName (source line 190): conventional service name. -/
def getPvPoolServiceName (pvp : PvPool) : String := pvp.name ++ "-srv"

/-- getPvPoolStatefulsetName (source line 250): conventional scale-group
name. -/
def getPvPoolStatefulsetName (pvp : PvPool) : String := pvp.name ++ "-sts"

/-- getPodURL (source line 442): the per-pod agent address, built from pod
name, subdomain and namespace over the fixed agent port 8080. -/
def getPodURL (podName serviceName ns : String) : String :=
  "http://" ++ podName ++ "." ++ serviceName ++ "." ++ ns ++ ".svc:8080"

/-- Address of a pod's agent as the controller computes it. -/
def podURL (p : Pod) : String := getPodURL p.name p.subdomain p.ns

/-- Reading a Go map entry: missing keys read as the zero value 0. -/
def mapGet : List (String × Int) → String → Int
  | [], _ => 0
  | (k, v) :: rest, s => if k = s then v else mapGet rest s

/-- The increment m[state]++ of a Go map: bump the existing entry, or
insert the key with value 1 (0 incremented) when it is absent. -/
def mapBump : List (String × Int) → String → List (String × Int)
  | [], s => [(s, 1)]
  | (k, v) :: rest, s =>
      if k = s then (k, v + 1) :: rest else (k, v) :: mapBump rest s

/-- Sum of all values stored in the count-by-state map. -/
def sumCounts (m : List (String × Int)) : Int := (m.map Prod.snd).sum

/-- percent (source line 404).  Go computes ((float64(part) * 100) /
float64(all)) and converts the float to int.  When all = 0 the float
division yields Inf or NaN and the conversion to int is
implementation-defined; that undefined outcome is modelled as none.  When
all is nonzero the conversion truncates toward zero; the embedding
idealizes the float64 rounding as the exact truncated quotient Int.tdiv.
That idealization coincides with the float64 pipeline whenever that
computation is exact (in particular at every concrete evaluation below,
whose operands are far below 2^53) but can differ at extreme int64
magnitudes, so no theorem below asserts the exact recorded value for a
nonzero total beyond such concrete exact inputs. -/
def percent (part all : Int) : Option Int :=
  if all = 0 then none else some ((part * 100).tdiv all)

/-- Whether the first character list is an initial segment of the
second. -/
def charListIsPre : List Char → List Char → Bool
  | [], _ => true
  | _ :: _, [] => false
  | c :: cs, d :: ds => c == d && charListIsPre cs ds

/-- Go strings.TrimPrefix: drop the prefix when present, otherwise return
the string unchanged (implemented over the character list so that it
evaluates inside the kernel). -/
def trimPre (s pre : String) : String :=
  if charListIsPre pre.toList s.toList then String.mk (s.toList.drop pre.toList.length) else s

/-- Digit run of Go strconv.Atoi: a nonempty all-digit string parses to
its decimal value, anything else is an error. -/
def atoiDigits (cs : List Char) : Option Nat :=
  if cs = [] then none
  else if cs.all (fun c => c.isDigit) then
    some (cs.foldl (fun acc c => acc * 10 + (c.toNat - 48)) 0)
  else none

/-- Go strconv.Atoi, which is ParseInt(s, 10, 0) over the platform int
(64-bit here): optional sign followed by at least one digit, and the
value must fit in int64 — a digit string beyond 9223372036854775807 (or
below -9223372036854775808 when signed) yields ErrRange; every failure
is modelled as none, matching the caller's skip path. -/
def atoi (s : String) : Option Int :=
  match s.toList with
  | [] => none
  | c :: rest =>
    if c = '-' then
      (atoiDigits rest).bind
        (fun n => if n ≤ 9223372036854775808 then some (-(n : Int)) else none)
    else if c = '+' then
      (atoiDigits rest).bind
        (fun n => if n ≤ 9223372036854775807 then some ((n : Int)) else none)
    else
      (atoiDigits (c :: rest)).bind
        (fun n => if n ≤ 9223372036854775807 then some ((n : Int)) else none)

/-- getInstanceNumberString (source line 515): strip the scale-group name
plus "-" from the pod name and parse the remainder as an integer. -/
def getInstanceNumberString (p s : String) : Option Int :=
  atoi (trimPre p (s ++ "-"))

/-- The Go conversion int32(n) of an int: keep the low 32 bits and read
them as a signed 32-bit value (wrap-around, no saturation). -/
def toInt32 (n : Int) : Int :=
  (n + 2147483648) % 4294967296 - 2147483648

/-- Whether an Except carries a value. -/
def exceptOk {ε α : Type} : Except ε α → Bool
  | .ok _ => true
  | .error _ => false

/-- The state a pod's agent reports under the given agent environment;
the Go loops initialize the state to Unknown before a successful query
overwrites it. -/
def observedState (agents : String → Except Err storageAgentStatus) (p : Pod) : String :=
  match agents (podURL p) with
  | .ok a => a.state
  | .error _ => PvPodStatusUnknown

/-- collectPodsStatus (source line 409).  Walks the pod list in order;
for each pod queries its agent at podURL.  On the first failure it
returns immediately with that error, keeping the mutations already made
to the status (the Go function mutates pvpStatus in place).  On success
it appends the pod to PodsInfo, increments CountByState at the reported
state, and overwrites Used with the percentage of the current pod, so the
final Used is that of the last observed pod. -/
def collectPodsStatus (agents : String → Except Err storageAgentStatus)
    (pvpStatus : PvPoolStatus) :
    List Pod → PvPoolStatus × Option Err
  | [] => (pvpStatus, none)
  | pod :: rest =>
    match agents (podURL pod) with
    | .error e => (pvpStatus, some e)
    | .ok agentStatus =>
      let st :=
        { pvpStatus with
          PodsInfo := pvpStatus.PodsInfo ++ [⟨pod.name, agentStatus.state⟩],
          CountByState := mapBump pvpStatus.CountByState agentStatus.state,
          Used := percent agentStatus.used agentStatus.total }
      collectPodsStatus agents st rest

/-- The inner loop of decommissionRequiredPods (source lines 549-556)
over pvp.Status.PodsInfo.  Go ranges by value: pInfo is a copy of the
slice element, req_num defaults to 0 when the name fails to parse (the
error is discarded), and the assignment pInfo.PodStatus =
PvPodStatusDecommissioned writes the field of the copy only — the
underlying slice element is never written, so each iteration leaves the
list entry unchanged. -/
def markDecommissioned (stsName : String) (num : Int)
    (podsInfo : List PvPodSInfo) : List PvPodSInfo :=
  podsInfo.map (fun pInfo =>
    let req_num := (getInstanceNumberString pInfo.PodName stsName).getD 0
    if num = req_num then pInfo else pInfo)

/-- decommissionRequiredPods (source line 520).  decommOk models the
transport outcome of decommissionStorageAgent for a given URL.  For each
pod: parse the ordinal from the name (parse failure: log and continue);
query the agent status (failure aborts with that error); when ordinal ≥
numPVs and state ≠ Decommissioning, issue the decommission call (recorded
in the first component), aborting on transport failure, then run the
no-op pods-info marking loop.  Returns the calls issued, the resulting
pvp.Status.PodsInfo, and the error if any. -/
def decommissionRequiredPods (agents : String → Except Err storageAgentStatus)
    (decommOk : String → Bool) (numPVs : Int) (stsName : String)
    (podsInfo : List PvPodSInfo) :
    List Pod → List String × List PvPodSInfo × Option Err
  | [] => ([], podsInfo, none)
  | pod :: rest =>
    match getInstanceNumberString pod.name stsName with
    | none => decommissionRequiredPods agents decommOk numPVs stsName podsInfo rest
    | some num =>
      match agents (podURL pod) with
      | .error e => ([], podsInfo, some e)
      | .ok a =>
        if numPVs ≤ toInt32 num ∧ a.state ≠ PvPodStatusDecommissioning then
          if decommOk (podURL pod) then
            let podsInfo1 := markDecommissioned stsName num podsInfo
            let r := decommissionRequiredPods agents decommOk numPVs stsName podsInfo1 rest
            (podURL pod :: r.1, r.2)
          else
            ([podURL pod], podsInfo, some (Err.agentUnreachable (podURL pod)))
        else decommissionRequiredPods agents decommOk numPVs stsName podsInfo rest

/-- Whether decommissionRequiredPods, in an environment where every agent
query and decommission succeeds, issues a decommission call for this pod:
the name parses to an ordinal num whose int32 conversion satisfies
int32(num) ≥ numPVs (the source's wrapping guard of line 539), and the
agent reports a state other than Decommissioning. -/
def shouldDecommission (agents : String → Except Err storageAgentStatus)
    (numPVs : Int) (stsName : String) (p : Pod) : Bool :=
  match getInstanceNumberString p.name stsName with
  | none => false
  | some num =>
    match agents (podURL p) with
    | .error _ => false
    | .ok a => decide (numPVs ≤ toInt32 num) && decide (a.state ≠ PvPodStatusDecommissioning)

/-- Selection criterion in the words of the claim and of spec section 8:
the pod name parses to an ordinal num with num ≥ numPVs (plain,
unwrapped comparison) and the agent reports a state other than
Decommissioning.  This is the specification-side counterpart of
shouldDecommission, stated for comparison with the source's wrapped
int32 guard; the two agree exactly on ordinals inside the int32
range. -/
def ordinalSelected (agents : String → Except Err storageAgentStatus)
    (numPVs : Int) (stsName : String) (p : Pod) : Bool :=
  match getInstanceNumberString p.name stsName with
  | none => false
  | some num =>
    match agents (podURL p) with
    | .error _ => false
    | .ok a => decide (numPVs ≤ num) && decide (a.state ≠ PvPodStatusDecommissioning)

/-- Whether a pod's parsed ordinal lies in the int32 range; pods whose
name does not parse are unconstrained.  Every ordinal produced by the
scale-group's zero-based naming scheme satisfies this, replica counts
being int32. -/
def ordinalInInt32Range (stsName : String) (p : Pod) : Bool :=
  match getInstanceNumberString p.name stsName with
  | none => true
  | some num => decide (-2147483648 ≤ num) && decide (num < 2147483648)

/-- Everything observable about one run of the scaling/decommission
engine: the phase it leaves in newStatus, the replica count left in the
scale-group object, whether r.Update was invoked on the scale-group, the
decommission calls issued (agent URLs, in order), the resulting
pvp.Status.PodsInfo, and the error the engine returns. -/
structure EngineResult where
  phase : String
  stsReplicas : Int
  stsUpdateCalled : Bool
  decommCalls : List String
  statusPodsInfo : List PvPodSInfo
  err : Option Err
deriving DecidableEq

/-- reconcilePvPoolStatefulset (source line 362), the scaling /
decommission engine.  Branch order as in the source: (1) numPVs ≥
replicas and Ready-count ≠ numPVs: set replicas to numPVs, phase Scaling,
and invoke r.Update on the scale-group (stsUpdateOk models that API
call's outcome); (2) numPVs < replicas: call decommissionRequiredPods —
the source discards its returned error (line 379), so the engine reports
none; (3) Ready-count = numPVs: phase Ready; (4) otherwise phase
Scaling.  Only branch 1 calls r.Update. -/
def reconcilePvPoolStatefulset (agents : String → Except Err storageAgentStatus)
    (decommOk : String → Bool) (stsUpdateOk : Bool)
    (numPVs stsReplicas : Int) (stsName : String)
    (oldPodsInfo : List PvPodSInfo) (phase0 : String)
    (countByState : List (String × Int)) (pods : List Pod) : EngineResult :=
  if numPVs ≥ stsReplicas ∧ mapGet countByState PvPodStatusReady ≠ numPVs then
    { phase := PvPoolPhaseScaling, stsReplicas := numPVs, stsUpdateCalled := true,
      decommCalls := [], statusPodsInfo := oldPodsInfo,
      err := if stsUpdateOk then none else some (Err.apiError "sts update failed") }
  else if numPVs < stsReplicas then
    let r := decommissionRequiredPods agents decommOk numPVs stsName oldPodsInfo pods
    { phase := phase0, stsReplicas := stsReplicas, stsUpdateCalled := false,
      decommCalls := r.1, statusPodsInfo := r.2.1, err := none }
  else if mapGet countByState PvPodStatusReady = numPVs then
    { phase := PvPoolPhaseReady, stsReplicas := stsReplicas, stsUpdateCalled := false,
      decommCalls := [], statusPodsInfo := oldPodsInfo, err := none }
  else
    { phase := PvPoolPhaseScaling, stsReplicas := stsReplicas, stsUpdateCalled := false,
      decommCalls := [], statusPodsInfo := oldPodsInfo, err := none }

/-- The external world one reconcile pass runs against: the agents
reachable by URL, the transport outcome of decommission calls, the pod
list returned by the API, the outcomes of the two ensure steps and of the
pod listing, the current replica count of the (existing) scale-group, and
the outcomes of the status write and the scale-group write. -/
structure ReconcileEnv where
  agents : String → Except Err storageAgentStatus
  decommOk : String → Bool
  pods : List Pod
  ensureSrvErr : Option Err
  ensureStsErr : Option Err
  listPodsErr : Option Err
  stsReplicas : Int
  statusUpdateOk : Bool
  stsUpdateOk : Bool

/-- The fresh status reconcilePvPool initializes (source lines 145-149):
phase Unknown, empty pods-info, empty count-by-state; the Used int field
starts at its Go zero value 0. -/
def initStatus : PvPoolStatus :=
  { Phase := PvPoolPhaseUnknown, PodsInfo := [], CountByState := [], Used := some 0 }

/-- reconcilePvPool (source line 142): ensure service, ensure
scale-group, list pods, collect pod status (keeping the mutations already
made to the status when collection fails mid-list), then run the engine;
returns the working status and the first error encountered. -/
def reconcilePvPool (env : ReconcileEnv) (pvp : PvPool) : PvPoolStatus × Option Err :=
  match env.ensureSrvErr with
  | some e => (initStatus, some e)
  | none =>
    match env.ensureStsErr with
    | some e => (initStatus, some e)
    | none =>
      match env.listPodsErr with
      | some e => (initStatus, some e)
      | none =>
        let c := collectPodsStatus env.agents initStatus env.pods
        match c.2 with
        | some e => (c.1, some e)
        | none =>
          let er := reconcilePvPoolStatefulset env.agents env.decommOk env.stsUpdateOk
            pvp.spec.numPVs env.stsReplicas (getPvPoolStatefulsetName pvp)
            pvp.status.PodsInfo c.1.Phase c.1.CountByState env.pods
          ({ c.1 with Phase := er.phase }, er.err)

/-- Outcome of fetching the PvPool resource at the top of Reconcile. -/
inductive GetResult where
  | found
  | notFound
  | getErr (e : Err)
deriving DecidableEq

/-- Everything observable about one Reconcile invocation: whether the
status subresource write was performed and succeeded, the status written,
the RequeueAfter seconds of the returned Result (0 when no requeue is
requested), and the error returned to the controller runtime. -/
structure ReconcileOutcome where
  statusWritten : Bool
  writtenStatus : Option PvPoolStatus
  requeueAfter : Int
  returnedErr : Option Err
deriving DecidableEq

/-- Reconcile (source line 95).  Not-found stops without requeue; a Get
error requeues after 3s with that error.  Otherwise reconcilePvPool runs
and the status update is attempted: the source guards it with
!reflect.DeepEqual(newStatus, pvPool.Status), but newStatus is a
*PvPoolStatus while pvPool.Status is a PvPoolStatus value, and
reflect.DeepEqual is false whenever its arguments have different types,
so the guard holds on every pass (statusDiffers below).  If the status
write fails, requeue 3s with the write error.  Then, when reconcilePvPool
returned an error, the source calls requeueWithError(err) where err is
the local variable still holding the nil result of the initial Get — not
reconcileErr — so the requeue is scheduled but the returned error is nil.
Finally: phase ≠ Ready requeues after 3s, phase Ready after 60s. -/
def Reconcile (env : ReconcileEnv) (getResult : GetResult) (pvp : PvPool) : ReconcileOutcome :=
  match getResult with
  | .notFound =>
    { statusWritten := false, writtenStatus := none, requeueAfter := 0, returnedErr := none }
  | .getErr e =>
    { statusWritten := false, writtenStatus := none, requeueAfter := 3, returnedErr := some e }
  | .found =>
    let res := reconcilePvPool env pvp
    let newStatus := res.1
    let reconcileErr := res.2
    let statusDiffers := true
    if statusDiffers ∧ env.statusUpdateOk = false then
      { statusWritten := false, writtenStatus := none, requeueAfter := 3,
        returnedErr := some (Err.apiError "status update failed") }
    else if reconcileErr.isSome then
      { statusWritten := statusDiffers, writtenStatus := some newStatus, requeueAfter := 3,
        returnedErr := none }
    else if newStatus.Phase ≠ PvPoolPhaseReady then
      { statusWritten := statusDiffers, writtenStatus := some newStatus, requeueAfter := 3,
        returnedErr := none }
    else
      { statusWritten := statusDiffers, writtenStatus := some newStatus, requeueAfter := 60,
        returnedErr := none }

/-- Agent environment where every agent answers 200 with state Ready. -/
def agentsAllReady : String → Except Err storageAgentStatus := fun url =>
  Except.ok { name := url, total := 1, used := 0, state := "Ready" }

/-- Decommission transport environment where every call succeeds. -/
def decommAllOk : String → Bool := fun _ => true

/-- C3: for D ≥ C with Ready-count ≠ D, the engine sets the scale-group
replica count to D, sets phase Scaling, and invokes the scale-group
update, which (the write succeeding) persists the mutated scale-group
with no error. -/
theorem c3_scale_up_sets_replicas_phase_and_writes
    (agents : String → Except Err storageAgentStatus) (decommOk : String → Bool)
    (D C : Int) (stsName : String) (oldPI : List PvPodSInfo) (phase0 : String)
    (cbs : List (String × Int)) (pods : List Pod)
    (hDC : D ≥ C) (hReady : mapGet cbs PvPodStatusReady ≠ D) :
    (reconcilePvPoolStatefulset agents decommOk true D C stsName oldPI phase0 cbs pods).stsReplicas = D ∧
    (reconcilePvPoolStatefulset agents decommOk true D C stsName oldPI phase0 cbs pods).phase = PvPoolPhaseScaling ∧
    (reconcilePvPoolStatefulset agents decommOk true D C stsName oldPI phase0 cbs pods).stsUpdateCalled = true ∧
    (reconcilePvPoolStatefulset agents decommOk true D C stsName oldPI phase0 cbs pods).err = none := by
  simp [reconcilePvPoolStatefulset, hDC, hReady]

/-- Witness for C3 at D = 3, C = 2 with two Ready pods counted. -/
theorem c3_scale_up_sets_replicas_phase_and_writes_witness :
    (reconcilePvPoolStatefulset agentsAllReady decommAllOk true 3 2 "p-sts" [] "Unknown" [("Ready", 2)] []).stsReplicas = 3 ∧
    (reconcilePvPoolStatefulset agentsAllReady decommAllOk true 3 2 "p-sts" [] "Unknown" [("Ready", 2)] []).phase = PvPoolPhaseScaling ∧
    (reconcilePvPoolStatefulset agentsAllReady decommAllOk true 3 2 "p-sts" [] "Unknown" [("Ready", 2)] []).stsUpdateCalled = true ∧
    (reconcilePvPoolStatefulset agentsAllReady decommAllOk true 3 2 "p-sts" [] "Unknown" [("Ready", 2)] []).err = none :=
  c3_scale_up_sets_replicas_phase_and_writes agentsAllReady decommAllOk 3 2 "p-sts" [] "Unknown"
    [("Ready", 2)] [] (by decide) (by decide)

/-- C5 counterexample: with replica count equal to the desired size (C =
D = 2) and Ready-count 1 ≠ 2, the engine reaches the scale-up branch
(its guard is D ≥ C, not D > C), so a mutating r.Update call on the
scale-group IS issued, refuting the claim that no mutating write is
performed in this state. -/
theorem c5_converging_state_writes_scale_group :
    (reconcilePvPoolStatefulset agentsAllReady decommAllOk true 2 2 "p-sts" [] "Unknown" [("Ready", 1)] []).stsUpdateCalled = true := by
  decide

/-- C5 amended: when the replica count equals the desired size D but the
Ready-count differs from D, the engine sets phase Scaling, and it does so
through the scale-up branch: it issues a mutating scale-group update
(writing back the unchanged replica count D); the observation-only
"otherwise" branch of the source is not the branch taken. -/
theorem c5_amended_scaling_phase_with_write
    (agents : String → Except Err storageAgentStatus) (decommOk : String → Bool)
    (stsUpdateOk : Bool) (D : Int) (stsName : String) (oldPI : List PvPodSInfo)
    (phase0 : String) (cbs : List (String × Int)) (pods : List Pod)
    (hReady : mapGet cbs PvPodStatusReady ≠ D) :
    (reconcilePvPoolStatefulset agents decommOk stsUpdateOk D D stsName oldPI phase0 cbs pods).phase = PvPoolPhaseScaling ∧
    (reconcilePvPoolStatefulset agents decommOk stsUpdateOk D D stsName oldPI phase0 cbs pods).stsUpdateCalled = true ∧
    (reconcilePvPoolStatefulset agents decommOk stsUpdateOk D D stsName oldPI phase0 cbs pods).stsReplicas = D := by
  simp [reconcilePvPoolStatefulset, hReady]

/-- Witness for the amended C5 at D = C = 2 with one Ready pod counted. -/
theorem c5_amended_scaling_phase_with_write_witness :
    (reconcilePvPoolStatefulset agentsAllReady decommAllOk true 2 2 "q-sts" [] "Unknown" [("Ready", 1)] []).phase = PvPoolPhaseScaling ∧
    (reconcilePvPoolStatefulset agentsAllReady decommAllOk true 2 2 "q-sts" [] "Unknown" [("Ready", 1)] []).stsUpdateCalled = true ∧
    (reconcilePvPoolStatefulset agentsAllReady decommAllOk true 2 2 "q-sts" [] "Unknown" [("Ready", 1)] []).stsReplicas = 2 :=
  c5_amended_scaling_phase_with_write agentsAllReady decommAllOk true 2 "q-sts" [] "Unknown"
    [("Ready", 1)] [] (by decide)

/-- C8: on an already-converged state (replica count = desired size D and
Ready-count = D) the engine produces phase Ready and issues zero mutating
calls: no scale-group update and no decommission call, with no error. -/
theorem c8_converged_ready_no_mutations
    (agents : String → Except Err storageAgentStatus) (decommOk : String → Bool)
    (stsUpdateOk : Bool) (D : Int) (stsName : String) (oldPI : List PvPodSInfo)
    (phase0 : String) (cbs : List (String × Int)) (pods : List Pod)
    (hReady : mapGet cbs PvPodStatusReady = D) :
    (reconcilePvPoolStatefulset agents decommOk stsUpdateOk D D stsName oldPI phase0 cbs pods).phase = PvPoolPhaseReady ∧
    (reconcilePvPoolStatefulset agents decommOk stsUpdateOk D D stsName oldPI phase0 cbs pods).stsUpdateCalled = false ∧
    (reconcilePvPoolStatefulset agents decommOk stsUpdateOk D D stsName oldPI phase0 cbs pods).decommCalls = [] ∧
    (reconcilePvPoolStatefulset agents decommOk stsUpdateOk D D stsName oldPI phase0 cbs pods).err = none := by
  simp [reconcilePvPoolStatefulset, hReady]

/-- Witness for C8 at D = C = 4 with all four pods Ready. -/
theorem c8_converged_ready_no_mutations_witness :
    (reconcilePvPoolStatefulset agentsAllReady decommAllOk true 4 4 "r-sts" [] "Unknown" [("Ready", 4)] []).phase = PvPoolPhaseReady ∧
    (reconcilePvPoolStatefulset agentsAllReady decommAllOk true 4 4 "r-sts" [] "Unknown" [("Ready", 4)] []).stsUpdateCalled = false ∧
    (reconcilePvPoolStatefulset agentsAllReady decommAllOk true 4 4 "r-sts" [] "Unknown" [("Ready", 4)] []).decommCalls = [] ∧
    (reconcilePvPoolStatefulset agentsAllReady decommAllOk true 4 4 "r-sts" [] "Unknown" [("Ready", 4)] []).err = none :=
  c8_converged_ready_no_mutations agentsAllReady decommAllOk true 4 "r-sts" [] "Unknown"
    [("Ready", 4)] [] (by decide)

/-- In an environment where every agent query and every decommission call
of the listed pods succeeds, the calls issued by decommissionRequiredPods
are exactly the pods selected by shouldDecommission, in list order. -/
theorem decommissionRequiredPods_calls_eq
    (agents : String → Except Err storageAgentStatus) (decommOk : String → Bool)
    (numPVs : Int) (stsName : String) (pods : List Pod)
    (hok : ∀ p ∈ pods, exceptOk (agents (podURL p)) = true)
    (hdec : ∀ p ∈ pods, decommOk (podURL p) = true) :
    ∀ podsInfo : List PvPodSInfo,
      (decommissionRequiredPods agents decommOk numPVs stsName podsInfo pods).1
        = (pods.filter (shouldDecommission agents numPVs stsName)).map podURL := by
  induction pods with
  | nil => intro podsInfo; simp [decommissionRequiredPods]
  | cons p rest ih =>
    intro podsInfo
    have hokp : exceptOk (agents (podURL p)) = true := hok p (by simp)
    have hdecp : decommOk (podURL p) = true := hdec p (by simp)
    have hokr : ∀ q ∈ rest, exceptOk (agents (podURL q)) = true :=
      fun q hq => hok q (by simp [hq])
    have hdecr : ∀ q ∈ rest, decommOk (podURL q) = true :=
      fun q hq => hdec q (by simp [hq])
    have ihr := ih hokr hdecr
    cases hnum : getInstanceNumberString p.name stsName with
    | none =>
      simp [decommissionRequiredPods, hnum, shouldDecommission, List.filter_cons, ihr]
    | some num =>
      cases hA : agents (podURL p) with
      | error e => rw [hA] at hokp; simp [exceptOk] at hokp
      | ok a =>
        by_cases hcond : numPVs ≤ toInt32 num ∧ a.state ≠ PvPodStatusDecommissioning
        · simp [decommissionRequiredPods, hnum, hA, hcond, hdecp, shouldDecommission,
            List.filter_cons, hcond.1, hcond.2, ihr]
        · have hb : (shouldDecommission agents numPVs stsName p) = false := by
            simp [shouldDecommission, hnum, hA]
            intro h1
            by_contra h2
            exact hcond ⟨h1, h2⟩
          simp [decommissionRequiredPods, hnum, hA, hcond, List.filter_cons, hb, ihr]

/-- Counting a pod's URL in the URL list of a filtered pod list: when the
pod URLs are pairwise distinct, a listed pod's URL occurs once if the pod
passes the filter and not at all otherwise. -/
theorem count_podURL_filter (f : Pod → Bool) (l : List Pod) (p : Pod)
    (hl : (l.map podURL).Nodup) (hp : p ∈ l) :
    ((l.filter f).map podURL).count (podURL p) = if f p then 1 else 0 := by
  induction l with
  | nil => cases hp
  | cons q rest ih =>
    rw [List.map_cons, List.nodup_cons] at hl
    obtain ⟨hq, hrest⟩ := hl
    rcases List.mem_cons.mp hp with hpq | hpr
    · subst hpq
      have hnotin : podURL p ∉ (rest.filter f).map podURL := by
        intro hmem
        rcases List.mem_map.mp hmem with ⟨x, hx, hxe⟩
        exact hq (hxe ▸ List.mem_map_of_mem podURL (List.mem_of_mem_filter hx))
      by_cases hf : f p
      · simp [List.filter_cons, hf, List.count_cons, List.count_eq_zero.mpr hnotin]
      · simp [List.filter_cons, hf, List.count_eq_zero.mpr hnotin]
    · have hne : podURL q ≠ podURL p := by
        intro h
        exact hq (h ▸ List.mem_map_of_mem podURL hpr)
      by_cases hf : f q
      · simp [List.filter_cons, hf, List.count_cons, hne, ih hrest hpr]
      · simp [List.filter_cons, hf, ih hrest hpr]

/-- On a pod whose parsed ordinal lies in the int32 range (or whose name
does not parse), the source's wrapped int32 guard agrees with the plain
ordinal comparison of the claim. -/
theorem shouldDecommission_eq_ordinalSelected
    (agents : String → Except Err storageAgentStatus) (numPVs : Int)
    (stsName : String) (p : Pod)
    (h : ordinalInInt32Range stsName p = true) :
    shouldDecommission agents numPVs stsName p = ordinalSelected agents numPVs stsName p := by
  cases hnum : getInstanceNumberString p.name stsName with
  | none => simp [shouldDecommission, ordinalSelected, hnum]
  | some num =>
    have h' := h
    simp only [ordinalInInt32Range, hnum] at h'
    simp at h'
    have ht : toInt32 num = num := by
      unfold toInt32
      omega
    cases hA : agents (podURL p) with
    | error e => simp [shouldDecommission, ordinalSelected, hnum, hA]
    | ok a => simp [shouldDecommission, ordinalSelected, hnum, hA, ht]

/-- C4: during a scale-down pass (D < C) in which every agent query and
every decommission transport call succeeds, the pod URLs are pairwise
distinct, and every pod name that parses yields an ordinal in the int32
range (as every ordinal of the scale-group's zero-based naming scheme
does, replica counts being int32), the engine's decommission calls are
exactly the pods whose ordinal is ≥ D and whose observed state is not
Decommissioning, in list order; consequently each such pod receives
exactly one call and every other pod receives none. -/
theorem c4_scale_down_exactly_one_decommission
    (agents : String → Except Err storageAgentStatus) (decommOk : String → Bool)
    (stsUpdateOk : Bool) (D C : Int) (stsName : String)
    (oldPI : List PvPodSInfo) (phase0 : String) (cbs : List (String × Int))
    (pods : List Pod) (p : Pod)
    (hDC : D < C)
    (hok : ∀ q ∈ pods, exceptOk (agents (podURL q)) = true)
    (hdec : ∀ q ∈ pods, decommOk (podURL q) = true)
    (hnd : (pods.map podURL).Nodup)
    (hrange : ∀ q ∈ pods, ordinalInInt32Range stsName q = true)
    (hp : p ∈ pods) :
    (reconcilePvPoolStatefulset agents decommOk stsUpdateOk D C stsName oldPI phase0 cbs pods).decommCalls
      = (pods.filter (ordinalSelected agents D stsName)).map podURL ∧
    (reconcilePvPoolStatefulset agents decommOk stsUpdateOk D C stsName oldPI phase0 cbs pods).decommCalls.count (podURL p)
      = if ordinalSelected agents D stsName p then 1 else 0 := by
  have hbranch : ¬ (D ≥ C ∧ mapGet cbs PvPodStatusReady ≠ D) := by
    intro h
    exact absurd h.1 (not_le.mpr hDC)
  have hfe : pods.filter (shouldDecommission agents D stsName)
      = pods.filter (ordinalSelected agents D stsName) :=
    List.filter_congr (fun q hq =>
      shouldDecommission_eq_ordinalSelected agents D stsName q (hrange q hq))
  have hcalls := decommissionRequiredPods_calls_eq agents decommOk D stsName pods hok hdec oldPI
  rw [hfe] at hcalls
  have hpoint := shouldDecommission_eq_ordinalSelected agents D stsName p (hrange p hp)
  constructor
  · simp [reconcilePvPoolStatefulset, hbranch, hDC, hcalls]
  · simp [reconcilePvPoolStatefulset, hbranch, hDC, hcalls,
      count_podURL_filter (ordinalSelected agents D stsName) pods p hnd hp]

/-- The four pods of the scale-down scenario, ordinals 0..3 of pool
"mypool". -/
def pods2 : List Pod :=
  [⟨"mypool-sts-0", "mypool-srv", "default"⟩, ⟨"mypool-sts-1", "mypool-srv", "default"⟩,
   ⟨"mypool-sts-2", "mypool-srv", "default"⟩, ⟨"mypool-sts-3", "mypool-srv", "default"⟩]

/-- Agent environment of the scale-down scenario: ordinals 0 and 1 report
Ready, ordinals 2 and 3 report Unknown; every query answers 200. -/
def agents2 : String → Except Err storageAgentStatus := fun url =>
  if url = "http://mypool-sts-0.mypool-srv.default.svc:8080" ∨
     url = "http://mypool-sts-1.mypool-srv.default.svc:8080" then
    Except.ok { name := url, total := 100, used := 10, state := "Ready" }
  else
    Except.ok { name := url, total := 100, used := 10, state := "Unknown" }

/-- Last-persisted pods-info of the scale-down scenario. -/
def oldPodsInfo2 : List PvPodSInfo :=
  [⟨"mypool-sts-0", "Ready"⟩, ⟨"mypool-sts-1", "Ready"⟩,
   ⟨"mypool-sts-2", "Unknown"⟩, ⟨"mypool-sts-3", "Unknown"⟩]

/-- C2 evaluated on the failing input D = 2, C = 4 with the pods at
ordinals 2 and 3 in state Unknown: both receive the decommission call,
but no pods-info entry ends the pass in state Decommissioned — the Go
loop assigns the state to a by-value copy of each entry, so the list is
returned unchanged and the claimed flip to Decommissioned never
happens. -/
theorem c2_decommissioned_never_recorded :
    (reconcilePvPoolStatefulset agents2 decommAllOk true 2 4 "mypool-sts" oldPodsInfo2
        "Unknown" [("Ready", 2), ("Unknown", 2)] pods2).decommCalls
      = ["http://mypool-sts-2.mypool-srv.default.svc:8080",
         "http://mypool-sts-3.mypool-srv.default.svc:8080"] ∧
    (reconcilePvPoolStatefulset agents2 decommAllOk true 2 4 "mypool-sts" oldPodsInfo2
        "Unknown" [("Ready", 2), ("Unknown", 2)] pods2).statusPodsInfo = oldPodsInfo2 ∧
    (oldPodsInfo2.all (fun i => i.PodStatus != PvPodStatusDecommissioned)) = true := by
  decide

/-- Witness for C4 on the concrete scale-down scenario, instantiated at
the pod of ordinal 2. -/
theorem c4_scale_down_exactly_one_decommission_witness :
    (reconcilePvPoolStatefulset agents2 decommAllOk true 2 4 "mypool-sts" oldPodsInfo2
        "Unknown" [("Ready", 2), ("Unknown", 2)] pods2).decommCalls
      = (pods2.filter (ordinalSelected agents2 2 "mypool-sts")).map podURL ∧
    (reconcilePvPoolStatefulset agents2 decommAllOk true 2 4 "mypool-sts" oldPodsInfo2
        "Unknown" [("Ready", 2), ("Unknown", 2)] pods2).decommCalls.count
        (podURL ⟨"mypool-sts-2", "mypool-srv", "default"⟩)
      = if ordinalSelected agents2 2 "mypool-sts" ⟨"mypool-sts-2", "mypool-srv", "default"⟩
          then 1 else 0 :=
  c4_scale_down_exactly_one_decommission agents2 decommAllOk true 2 4 "mypool-sts" oldPodsInfo2
    "Unknown" [("Ready", 2), ("Unknown", 2)] pods2 ⟨"mypool-sts-2", "mypool-srv", "default"⟩
    (by decide) (by decide) (by decide) (by decide) (by decide) (by decide)

/-- Bumping a key raises its stored count by one. -/
theorem mapGet_mapBump_same (m : List (String × Int)) (s : String) :
    mapGet (mapBump m s) s = mapGet m s + 1 := by
  induction m with
  | nil => simp [mapBump, mapGet]
  | cons kv rest ih =>
    obtain ⟨k, v⟩ := kv
    by_cases hk : k = s
    · simp [mapBump, mapGet, hk]
    · simp [mapBump, mapGet, hk, ih]

/-- Bumping a key leaves every other key's stored count unchanged. -/
theorem mapGet_mapBump_other (m : List (String × Int)) (s t : String) (h : s ≠ t) :
    mapGet (mapBump m s) t = mapGet m t := by
  induction m with
  | nil => simp [mapBump, mapGet, h]
  | cons kv rest ih =>
    obtain ⟨k, v⟩ := kv
    by_cases hk : k = s
    · subst hk
      simp [mapBump, mapGet, h]
    · by_cases hkt : k = t
      · simp [mapBump, mapGet, hk, hkt, Ne.symm h]
      · simp [mapBump, mapGet, hk, hkt, ih]

/-- Bumping a key raises the total of all stored counts by one. -/
theorem sumCounts_mapBump (m : List (String × Int)) (s : String) :
    sumCounts (mapBump m s) = sumCounts m + 1 := by
  induction m with
  | nil => simp [mapBump, sumCounts]
  | cons kv rest ih =>
    obtain ⟨k, v⟩ := kv
    by_cases hk : k = s
    · simp [mapBump, sumCounts, hk]
      ring
    · simp [mapBump, sumCounts, hk] at ih ⊢
      omega

/-- Invariant of the collection loop: a successful pass adds to each
state's count exactly the number of listed pods observed in that state,
and adds the number of pods to the total of the counts. -/
theorem collectPodsStatus_counts
    (agents : String → Except Err storageAgentStatus) (pods : List Pod) :
    ∀ st0 st : PvPoolStatus, collectPodsStatus agents st0 pods = (st, none) →
      (∀ s : String,
        mapGet st.CountByState s
          = mapGet st0.CountByState s + ((pods.map (observedState agents)).count s : Int)) ∧
      sumCounts st.CountByState = sumCounts st0.CountByState + pods.length := by
  induction pods with
  | nil =>
    intro st0 st h
    simp [collectPodsStatus] at h
    subst h
    simp
  | cons p rest ih =>
    intro st0 st h
    cases hA : agents (podURL p) with
    | error e =>
      rw [collectPodsStatus, hA] at h
      simp at h
    | ok a =>
      rw [collectPodsStatus, hA] at h
      obtain ⟨h1, h2⟩ := ih _ st h
      have hobs : observedState agents p = a.state := by
        simp [observedState, hA]
      constructor
      · intro s
        rw [h1 s]
        by_cases hs : a.state = s
        · subst hs
          simp [mapGet_mapBump_same, hobs, List.count_cons]
          omega
        · rw [mapGet_mapBump_other _ _ _ hs]
          simp [List.count_cons, hobs, hs]
      · rw [h2]
        simp [sumCounts_mapBump]
        omega

/-- C9: for a successful status-collection pass starting from the fresh
status, the count-by-state mapping partitions the pods exactly: each key
holds the number of pods observed in that state (so each pod contributes
exactly one increment, to its reported state's key), and the sum of the
counts over all keys of the mapping equals the number of pods. -/
theorem c9_count_by_state_partitions
    (agents : String → Except Err storageAgentStatus) (pods : List Pod)
    (st : PvPoolStatus) (s : String)
    (h : collectPodsStatus agents initStatus pods = (st, none)) :
    mapGet st.CountByState s = ((pods.map (observedState agents)).count s : Int) ∧
    sumCounts st.CountByState = pods.length := by
  obtain ⟨h1, h2⟩ := collectPodsStatus_counts agents pods initStatus st h
  refine ⟨?_, ?_⟩
  · rw [h1 s]
    simp [initStatus, mapGet]
  · rw [h2]
    simp [initStatus, sumCounts]

/-- The status the collection pass builds on the concrete four-pod
scenario. -/
def st9 : PvPoolStatus :=
  { Phase := "Unknown",
    PodsInfo := [⟨"mypool-sts-0", "Ready"⟩, ⟨"mypool-sts-1", "Ready"⟩,
                 ⟨"mypool-sts-2", "Unknown"⟩, ⟨"mypool-sts-3", "Unknown"⟩],
    CountByState := [("Ready", 2), ("Unknown", 2)],
    Used := some 10 }

/-- Witness for C9 on the concrete four-pod scenario, at state key
Ready. -/
theorem c9_count_by_state_partitions_witness :
    mapGet st9.CountByState "Ready"
      = ((pods2.map (observedState agents2)).count "Ready" : Int) ∧
    sumCounts st9.CountByState = pods2.length :=
  c9_count_by_state_partitions agents2 pods2 st9 "Ready" (by decide)

/-- Agent environment of the C10 scenario: the agent answers 200 with
total = 0 (for example an empty or field-less JSON body, whose absent
int64 fields unmarshal to 0). -/
def agentsZero : String → Except Err storageAgentStatus := fun url =>
  Except.ok { name := url, total := 0, used := 5, state := "Ready" }

/-- Pod of the C10 scenario. -/
def podZ : Pod := ⟨"zp-sts-0", "zp-srv", "default"⟩

/-- C10: percent divides with no guard on total, and an agent
successfully reporting total = 0 drives collectPodsStatus into that
division: the pass succeeds (no error path exists for it) and the
recorded utilization is the undefined marker none — the division's
undefined branch is reachable from the public interface. -/
theorem c10_division_by_zero_reachable :
    percent 5 0 = none ∧
    (collectPodsStatus agentsZero initStatus [podZ]).2 = none ∧
    (collectPodsStatus agentsZero initStatus [podZ]).1.Used = none := by
  decide

/-- The single pod of the unreachable-agent scenario. -/
def pod1 : Pod := ⟨"mypool-sts-0", "mypool-srv", "default"⟩

/-- Agent environment where every agent is unreachable. -/
def agents1 : String → Except Err storageAgentStatus := fun url =>
  Except.error (Err.agentUnreachable url)

/-- Environment of the unreachable-agent scenario: the ensure steps and
the pod listing succeed, the only pod's agent is unreachable, and both
API writes would succeed. -/
def env1 : ReconcileEnv :=
  { agents := agents1, decommOk := fun _ => true, pods := [pod1],
    ensureSrvErr := none, ensureStsErr := none, listPodsErr := none,
    stsReplicas := 1, statusUpdateOk := true, stsUpdateOk := true }

/-- The pool of the unreachable-agent scenario, whose last persisted
status is a Ready status. -/
def pvp1 : PvPool :=
  { name := "mypool", ns := "default",
    spec := { image := "img", numPVs := 1, pvSizeGB := 10 },
    status := { Phase := "Ready", PodsInfo := [⟨"mypool-sts-0", "Ready"⟩],
                CountByState := [("Ready", 1)], Used := some 7 } }

/-- C1 counterexample: on a pass whose status collection fails because
the agent is unreachable, the reconciler does not leave the persisted
status at its last-persisted value — it writes the pass's partially-built
status (different from the stored one) — and the error returned outward
is nil, not the collection error; only the short-delay retry part of the
claim holds. -/
theorem c1_counterexample_partial_status_written :
    (Reconcile env1 GetResult.found pvp1).statusWritten = true ∧
    (Reconcile env1 GetResult.found pvp1).writtenStatus ≠ some pvp1.status ∧
    (Reconcile env1 GetResult.found pvp1).returnedErr = none ∧
    (Reconcile env1 GetResult.found pvp1).requeueAfter = 3 := by
  decide

/-- C1 amended: on every pass in which the ensure steps and the pod
listing succeed but some agent status query fails during collection (and
the status write itself succeeds), Reconcile writes the partially-built
status of the failed pass (the reflect.DeepEqual guard compares a pointer
with a value and never reports equality), schedules the short 3-second
retry, and returns nil to the platform instead of the collection error
(requeueWithError receives the stale Get error variable). -/
theorem c1_amended_failed_collection_outcome
    (env : ReconcileEnv) (pvp : PvPool) (st : PvPoolStatus) (e : Err)
    (h1 : env.ensureSrvErr = none) (h2 : env.ensureStsErr = none)
    (h3 : env.listPodsErr = none)
    (h4 : collectPodsStatus env.agents initStatus env.pods = (st, some e))
    (h5 : env.statusUpdateOk = true) :
    Reconcile env GetResult.found pvp =
      { statusWritten := true, writtenStatus := some st, requeueAfter := 3,
        returnedErr := none } := by
  simp [Reconcile, reconcilePvPool, h1, h2, h3, h4, h5]

/-- Witness for the amended C1 on the concrete unreachable-agent
scenario. -/
theorem c1_amended_failed_collection_outcome_witness :
    Reconcile env1 GetResult.found pvp1 =
      { statusWritten := true, writtenStatus := some initStatus, requeueAfter := 3,
        returnedErr := none } :=
  c1_amended_failed_collection_outcome env1 pvp1 initStatus
    (Err.agentUnreachable "http://mypool-sts-0.mypool-srv.default.svc:8080")
    rfl rfl rfl (by decide) rfl

/-- C6 evaluated at a failing input: the pass has an error (the
collection failed with AgentUnreachable, as reconcilePvPool's second
component shows), a flat 3-second retry is scheduled, but the error
returned outward is nil — line 129 of the source passes the stale Get
error variable err (nil on this path) to requeueWithError instead of
reconcileErr, so the pass's error is dropped rather than propagated. -/
theorem c6_retry_scheduled_but_error_dropped :
    (reconcilePvPool env1 pvp1).2
      = some (Err.agentUnreachable "http://mypool-sts-0.mypool-srv.default.svc:8080") ∧
    (Reconcile env1 GetResult.found pvp1).requeueAfter = 3 ∧
    (Reconcile env1 GetResult.found pvp1).returnedErr = none := by
  decide
